import Mathlib

/-!
# Verification of `calendar_archiver.py`

A shallow embedding of the calendar archiver: the canonical event record,
the fingerprint (MD5) function, month filtering, day grouping, within-day
sorting, day-document rendering, and the fingerprint-index lifecycle, each
translated from the Python source, together with theorems settling the
specification claims.
-/

set_option maxRecDepth 10000

namespace CalendarArchiver

/-! ## Calendar dates and times -/

/-- A calendar date (`datetime.date`). -/
structure CalDate where
  year : Nat
  month : Nat
  day : Nat
deriving DecidableEq, Repr

/-- A time of day (hour/minute/second; events carry no microseconds). -/
structure TimeOfDay where
  hour : Nat
  minute : Nat
  second : Nat
deriving DecidableEq, Repr

/-- A Python `date` or `datetime` value as it appears in `event['start']` /
`event['end']`:  either a bare calendar date (all-day events), or a
date-plus-time with an optional fixed UTC-offset timezone (in minutes). -/
inductive DTValue where
  | dateOnly (d : CalDate)
  | dateTime (d : CalDate) (t : TimeOfDay) (tzOffsetMinutes : Option Int)
deriving DecidableEq, Repr

/-- Python `hasattr(v, 'time')`: true exactly for `datetime` objects. -/
def hasTimeAttr : DTValue → Bool
  | .dateOnly _ => false
  | .dateTime _ _ _ => true

/-- Python `hasattr(v, 'strftime')`: true for BOTH `date` and `datetime` objects
(`datetime.date` does define `strftime`). -/
def hasStrftimeAttr : DTValue → Bool
  | .dateOnly _ => true
  | .dateTime _ _ _ => true

/-- Python `hasattr(v, 'date')`: true exactly for `datetime` objects
(`date` has no `.date()` method). -/
def hasDateAttr : DTValue → Bool
  | .dateOnly _ => false
  | .dateTime _ _ _ => true

/-- The calendar-date extraction performed by `filter_events_by_month`
(lines 195-197) and by the day grouping (lines 235-239):
`event_date.date()` for a `datetime`, the value itself for a `date`.
No timezone conversion happens here. -/
def eventStartDate : DTValue → CalDate
  | .dateOnly d => d
  | .dateTime d _ _ => d

/-- Zero-padded two-digit decimal rendering (`%02d`). -/
def pad2 (n : Nat) : String :=
  if n < 10 then "0" ++ toString n else toString n

/-- Zero-padded four-digit decimal rendering (`%04d`, used by `str(date)`). -/
def pad4 (n : Nat) : String :=
  if n < 10 then "000" ++ toString n
  else if n < 100 then "00" ++ toString n
  else if n < 1000 then "0" ++ toString n
  else toString n

/-- Gregorian leap-year test, as in Python's `calendar`/`datetime`. -/
def isLeap (y : Nat) : Bool :=
  (y % 4 == 0 && y % 100 != 0) || y % 400 == 0

/-- Days in the months before month `m` (1-based) of a non-leap year. -/
def cumDaysBeforeMonth (m : Nat) : Nat :=
  [0, 0, 31, 59, 90, 120, 151, 181, 212, 243, 273, 304, 334].getD m 0

/-- Python `date.toordinal()`: days since 0000-12-31, so 0001-01-01 has ordinal 1. -/
def toOrdinal (d : CalDate) : Nat :=
  let py := d.year - 1
  let leapAdd := if 2 < d.month && isLeap d.year then 1 else 0
  py * 365 + py / 4 - py / 100 + py / 400 + cumDaysBeforeMonth d.month + leapAdd + d.day

/-- Wall-clock seconds of a date+time on the proleptic Gregorian timeline
(no timezone applied). -/
def wallSecs (d : CalDate) (t : TimeOfDay) : Int :=
  (toOrdinal d : Int) * 86400 + (t.hour : Int) * 3600 + (t.minute : Int) * 60 + (t.second : Int)

def weekdayNames : List String :=
  ["Sunday", "Monday", "Tuesday", "Wednesday", "Thursday", "Friday", "Saturday"]

def monthNames : List String :=
  ["", "January", "February", "March", "April", "May", "June",
   "July", "August", "September", "October", "November", "December"]

/-- Python `event_date.strftime('%A, %B %d, %Y')`, used in the day-document header. -/
def strftimeHeader (d : CalDate) : String :=
  (weekdayNames.getD (toOrdinal d % 7) "") ++ ", " ++
    (monthNames.getD d.month "") ++ " " ++ pad2 d.day ++ ", " ++ toString d.year

/-- Python `v.strftime('%H:%M')`.  On a bare `date` this is `"00:00"` (Python
renders a date's time components as midnight). -/
def strftimeHM : DTValue → String
  | .dateOnly _ => "00:00"
  | .dateTime _ t _ => pad2 t.hour ++ ":" ++ pad2 t.minute

/-- The `str(offset)` suffix of an aware datetime, e.g. `"+02:00"`. -/
def tzSuffix (off : Int) : String :=
  let a := off.natAbs
  (if off < 0 then "-" else "+") ++ pad2 (a / 60) ++ ":" ++ pad2 (a % 60)

/-- Python `str()` of a `date` or `datetime` value, as interpolated into the
fingerprint pre-image: `"YYYY-MM-DD"`, `"YYYY-MM-DD HH:MM:SS"`, or
`"YYYY-MM-DD HH:MM:SS+HH:MM"`. -/
def pyStr : DTValue → String
  | .dateOnly d => pad4 d.year ++ "-" ++ pad2 d.month ++ "-" ++ pad2 d.day
  | .dateTime d t tz =>
    pad4 d.year ++ "-" ++ pad2 d.month ++ "-" ++ pad2 d.day ++ " " ++
      pad2 t.hour ++ ":" ++ pad2 t.minute ++ ":" ++ pad2 t.second ++
      (match tz with
       | none => ""
       | some off => tzSuffix off)

/-- Python `str(timedelta)` for a whole number of seconds: `"H:MM:SS"`, prefixed
with `"D day, "` / `"D days, "` when the normalized day count is nonzero
(days may be negative; seconds are normalized into `[0, 86400)`). -/
def pyTimedeltaStr (total : Int) : String :=
  let days := total.fdiv 86400
  let rem := (total - days * 86400).toNat
  let h := rem / 3600
  let m := rem % 3600 / 60
  let s := rem % 60
  let hms := toString h ++ ":" ++ pad2 m ++ ":" ++ pad2 s
  if days = 0 then hms
  else
    toString days ++ (if days.natAbs = 1 then " day, " else " days, ") ++ hms

/-! ## UTF-8 and MD5 (`hashlib.md5(...).hexdigest()`) -/

/-- UTF-8 encoding of one character, each byte as a `Nat`. -/
def utf8Char (c : Char) : List Nat :=
  let n := c.toNat
  if n < 128 then [n]
  else if n < 2048 then
    [192 ||| (n >>> 6), 128 ||| (n &&& 63)]
  else if n < 65536 then
    [224 ||| (n >>> 12), 128 ||| ((n >>> 6) &&& 63), 128 ||| (n &&& 63)]
  else
    [240 ||| (n >>> 18), 128 ||| ((n >>> 12) &&& 63),
     128 ||| ((n >>> 6) &&& 63), 128 ||| (n &&& 63)]

/-- Python `s.encode('utf-8')` as a list of byte values. -/
def utf8Bytes (s : String) : List Nat :=
  (s.data.map utf8Char).flatten

/-- The 64 MD5 sine-table constants `K[i]` (RFC 1321). -/
def md5K : List Nat :=
  [0xd76aa478, 0xe8c7b756, 0x242070db, 0xc1bdceee,
   0xf57c0faf, 0x4787c62a, 0xa8304613, 0xfd469501,
   0x698098d8, 0x8b44f7af, 0xffff5bb1, 0x895cd7be,
   0x6b901122, 0xfd987193, 0xa679438e, 0x49b40821,
   0xf61e2562, 0xc040b340, 0x265e5a51, 0xe9b6c7aa,
   0xd62f105d, 0x02441453, 0xd8a1e681, 0xe7d3fbc8,
   0x21e1cde6, 0xc33707d6, 0xf4d50d87, 0x455a14ed,
   0xa9e3e905, 0xfcefa3f8, 0x676f02d9, 0x8d2a4c8a,
   0xfffa3942, 0x8771f681, 0x6d9d6122, 0xfde5380c,
   0xa4beea44, 0x4bdecfa9, 0xf6bb4b60, 0xbebfbc70,
   0x289b7ec6, 0xeaa127fa, 0xd4ef3085, 0x04881d05,
   0xd9d4d039, 0xe6db99e5, 0x1fa27cf8, 0xc4ac5665,
   0xf4292244, 0x432aff97, 0xab9423a7, 0xfc93a039,
   0x655b59c3, 0x8f0ccc92, 0xffeff47d, 0x85845dd1,
   0x6fa87e4f, 0xfe2ce6e0, 0xa3014314, 0x4e0811a1,
   0xf7537e82, 0xbd3af235, 0x2ad7d2bb, 0xeb86d391]

/-- The 64 MD5 per-round left-rotation amounts `s[i]`. -/
def md5S : List Nat :=
  [7, 12, 17, 22, 7, 12, 17, 22, 7, 12, 17, 22, 7, 12, 17, 22,
   5, 9, 14, 20, 5, 9, 14, 20, 5, 9, 14, 20, 5, 9, 14, 20,
   4, 11, 16, 23, 4, 11, 16, 23, 4, 11, 16, 23, 4, 11, 16, 23,
   6, 10, 15, 21, 6, 10, 15, 21, 6, 10, 15, 21, 6, 10, 15, 21]

def mask32 : Nat := 0xffffffff

/-- The 32-bit left rotation. -/
def leftrot (x c : Nat) : Nat :=
  ((x <<< c) ||| (x >>> (32 - c))) &&& mask32

def md5F (b c d : Nat) : Nat := (b &&& c) ||| ((mask32 ^^^ b) &&& d)
def md5G (b c d : Nat) : Nat := (d &&& b) ||| ((mask32 ^^^ d) &&& c)
def md5H (b c d : Nat) : Nat := b ^^^ c ^^^ d
def md5I (b c d : Nat) : Nat := c ^^^ (b ||| (mask32 ^^^ d))

/-- One of the 64 MD5 operations.  `M j` is the `j`-th little-endian
32-bit word of the current chunk. -/
def md5Round (M : Nat → Nat) (st : Nat × Nat × Nat × Nat) (i : Nat) :
    Nat × Nat × Nat × Nat :=
  let a := st.1
  let b := st.2.1
  let c := st.2.2.1
  let d := st.2.2.2
  let fg : Nat × Nat :=
    if i < 16 then (md5F b c d, i)
    else if i < 32 then (md5G b c d, (5 * i + 1) % 16)
    else if i < 48 then (md5H b c d, (3 * i + 5) % 16)
    else (md5I b c d, (7 * i) % 16)
  let f := (fg.1 + a + md5K.getD i 0 + M fg.2) &&& mask32
  (d, (b + leftrot f (md5S.getD i 0)) &&& mask32, b, c)

/-- The `n` little-endian bytes of `x`. -/
def toLEBytes : Nat → Nat → List Nat
  | 0, _ => []
  | n + 1, x => (x % 256) :: toLEBytes n (x / 256)

/-- MD5 padding: append `0x80`, zero bytes to 56 mod 64, then the original
bit length as a 64-bit little-endian quantity. -/
def md5Pad (msg : List Nat) : List Nat :=
  let len := msg.length
  let padLen := (120 - (len + 1) % 64) % 64
  msg ++ [0x80] ++ List.replicate padLen 0 ++ toLEBytes 8 ((8 * len) % 2 ^ 64)

/-- Split a byte list (whose length is a multiple of 64) into 64-byte chunks. -/
def md5Chunks (l : List Nat) : List (List Nat) :=
  (List.range (l.length / 64)).map (fun i => (l.drop (64 * i)).take 64)

/-- Little-endian 32-bit word `j` of a 64-byte chunk. -/
def chunkWord (chunk : List Nat) (j : Nat) : Nat :=
  chunk.getD (4 * j) 0 + 256 * chunk.getD (4 * j + 1) 0 +
    65536 * chunk.getD (4 * j + 2) 0 + 16777216 * chunk.getD (4 * j + 3) 0

/-- Process one 64-byte chunk: 64 rounds, then add into the running state. -/
def md5Chunk (st : Nat × Nat × Nat × Nat) (chunk : List Nat) :
    Nat × Nat × Nat × Nat :=
  let r := (List.range 64).foldl (md5Round (chunkWord chunk)) st
  ((st.1 + r.1) &&& mask32, (st.2.1 + r.2.1) &&& mask32,
   (st.2.2.1 + r.2.2.1) &&& mask32, (st.2.2.2 + r.2.2.2) &&& mask32)

def hexDigit (n : Nat) : Char :=
  if n < 10 then Char.ofNat (48 + n) else Char.ofNat (87 + n)

def hexByte (b : Nat) : String :=
  String.mk [hexDigit (b / 16), hexDigit (b % 16)]

/-- Python `hashlib.md5(bytes).hexdigest()`: lowercase hex digest of a byte list. -/
def md5Hex (msg : List Nat) : String :=
  let st := (md5Chunks (md5Pad msg)).foldl md5Chunk
    (0x67452301, 0xefcdab89, 0x98badcfe, 0x10325476)
  String.join (((toLEBytes 4 st.1 ++ toLEBytes 4 st.2.1 ++
    toLEBytes 4 st.2.2.1 ++ toLEBytes 4 st.2.2.2).map hexByte))

/-! ## The canonical event record (`parse_ics_data`, lines 167-178) -/

/-- The canonical event dictionary built by `parse_ics_data`. -/
structure Event where
  uid : String
  title : String
  start : DTValue
  end_ : DTValue
  duration : String
  location : String
  description : String
  participants : List String
  created : String
  last_modified : String
deriving DecidableEq, Repr

/-- The fingerprint pre-image
`f"{event['title']}|{event['start']}|{event['end']}|{event['location']}|{event['description']}"`
(line 207). -/
def eventData (e : Event) : String :=
  e.title ++ "|" ++ pyStr e.start ++ "|" ++ pyStr e.end_ ++ "|" ++
    e.location ++ "|" ++ e.description

/-- Function `get_event_hash` (lines 205-208): MD5 hex digest of the UTF-8 encoded
pre-image. -/
def get_event_hash (e : Event) : String :=
  md5Hex (utf8Bytes (eventData e))

/-! ## Attendee normalization (`parse_ics_data`, lines 157-161) -/

/-- Python `str(att).replace('MAILTO:', '')`: removes every (leftmost,
non-overlapping) occurrence of the exact substring `MAILTO:`. -/
def removeMailto : List Char → List Char
  | 'M' :: 'A' :: 'I' :: 'L' :: 'T' :: 'O' :: ':' :: rest => removeMailto rest
  | c :: cs => c :: removeMailto cs
  | [] => []

def pyReplaceMailto (s : String) : String :=
  String.mk (removeMailto s.data)

/-- The `attendee` field of a raw VEVENT: absent (`component.get` returns
the default `[]`), a single value, or a list of values. -/
inductive AttendeeField where
  | absent
  | single (v : String)
  | multiple (vs : List String)
deriving DecidableEq, Repr

/-- Lines 158-161: wrap a non-list value into a one-element list, then map
`str(att).replace('MAILTO:', '')` over it. -/
def participantsOf : AttendeeField → List String
  | .absent => []
  | .single v => [pyReplaceMailto v]
  | .multiple vs => vs.map pyReplaceMailto

/-! ## Event normalization (`parse_ics_data`, lines 140-180) -/

/-- A loosely-typed VEVENT as handed over by the `icalendar` library. -/
structure RawEvent where
  summary : Option String
  dtstart : Option DTValue
  dtend : Option DTValue
  uid : Option String
  location : Option String
  description : Option String
  attendee : AttendeeField
  created : Option String
  lastModified : Option String
deriving DecidableEq, Repr

/-- Lines 147-152: `end_dt - start_dt` stringified when the start is a
`datetime`, else the literal `"All day"`.  A `datetime`/`date` or
aware/naive mix in the subtraction raises `TypeError` in Python, which the
per-event `except` turns into skipping the event (`none` here). -/
def durationStrOf (s e : DTValue) : Option String :=
  match s with
  | .dateOnly _ => some "All day"
  | .dateTime ds ts tzs =>
    match e with
    | .dateOnly _ => none
    | .dateTime de te tze =>
      match tzs, tze with
      | none, none => some (pyTimedeltaStr (wallSecs de te - wallSecs ds ts))
      | some os, some oe =>
        some (pyTimedeltaStr ((wallSecs de te - oe * 60) - (wallSecs ds ts - os * 60)))
      | _, _ => none

/-- One iteration of the VEVENT loop (lines 140-180): extract fields with
their defaults, compute duration and participants; `none` when the event is
skipped by the `except` clause (missing `dtstart`, or a `TypeError` in the
duration subtraction).  `event_count` is the 1-based position used for the
`event_<n>` uid fallback. -/
def parse_event (raw : RawEvent) (event_count : Nat) : Option Event :=
  match raw.dtstart with
  | none => none
  | some s =>
    let e := raw.dtend.getD s
    match durationStrOf s e with
    | none => none
    | some dur =>
      some
        { uid := raw.uid.getD ("event_" ++ toString event_count),
          title := raw.summary.getD "Untitled",
          start := s,
          end_ := e,
          duration := dur,
          location := raw.location.getD "",
          description := raw.description.getD "",
          participants := participantsOf raw.attendee,
          created := raw.created.getD "",
          last_modified := raw.lastModified.getD "" }

/-! ## Month filter (`filter_events_by_month`, lines 189-203) -/

def filter_events_by_month (events : List Event) (target_year target_month : Nat) :
    List Event :=
  events.filter (fun e =>
    let d := eventStartDate e.start
    decide (d.year = target_year ∧ d.month = target_month))

/-! ## Within-day sorting (`get_sort_key`, lines 272-286) -/

/-- Function `get_sort_key`: the source returns a `time.struct_time` 9-tuple —
`utctimetuple()` for aware datetimes (UTC-normalized wall clock,
`tm_isdst = 0`), `timetuple()` for naive datetimes (`tm_isdst = -1`), and
`datetime.combine(start, datetime.min.time()).timetuple()` for bare dates
(midnight, naive, `tm_isdst = -1`).  Lexicographic comparison of those
tuples equals comparison of (chronological seconds of the represented wall
clock, `tm_isdst`), because `tm_wday`/`tm_yday` are functions of the date
fields; that pair is the key modelled here. -/
def get_sort_key (e : Event) : Int × Int :=
  match e.start with
  | .dateTime d t (some off) => (wallSecs d t - off * 60, 0)
  | .dateTime d t none => (wallSecs d t, -1)
  | .dateOnly d => (wallSecs d ⟨0, 0, 0⟩, -1)

def keyLE (a b : Int × Int) : Bool :=
  decide (a.1 < b.1 ∨ (a.1 = b.1 ∧ a.2 ≤ b.2))

/-- Insert an event after every already-placed event whose key is `≤` its
own; `foldl` over the input then reproduces Python's stable `sorted`. -/
def insertEvent (e : Event) : List Event → List Event
  | [] => [e]
  | x :: xs =>
    if keyLE (get_sort_key x) (get_sort_key e) then x :: insertEvent e xs
    else e :: x :: xs

def pySortEvents (l : List Event) : List Event :=
  l.foldl (fun acc e => insertEvent e acc) []

/-! ## Day grouping (`save_daily_events`, lines 233-243) -/

/-- First occurrences of each element, in input order (Python `dict`
insertion order for the group keys). -/
def dedupFirst {α : Type} [DecidableEq α] : List α → List α
  | [] => []
  | a :: as => a :: (dedupFirst as).filter (fun b => decide (b ≠ a))

/-- The `events_by_date` grouping dict: keys in first-appearance order, each group keeping
input order — the contents of the Python grouping dict. -/
def groupByDate (events : List Event) : List (CalDate × List Event) :=
  (dedupFirst (events.map (fun e => eventStartDate e.start))).map
    (fun d => (d, events.filter (fun e => decide (eventStartDate e.start = d))))

/-! ## The fingerprint index -/

/-- Python `existing_hashes.get(uid)` / `uid in existing_hashes`: the value at the
first (in a Python dict: unique) matching key. -/
def lookupIdx : List (String × String) → String → Option String
  | [], _ => none
  | p :: ps, u => if p.1 = u then some p.2 else lookupIdx ps u

/-- Python dict assignment `d[u] = v`: replace in place if present, else
append. -/
def dictInsert : List (String × String) → String → String → List (String × String)
  | [], u, v => [(u, v)]
  | p :: ps, u, v =>
    if p.1 = u then (p.1, v) :: ps else p :: dictInsert ps u v

/-- The dict comprehension at line 354 over the filtered event list:
the persisted index is rebuilt from scratch over the filtered event list. -/
def buildIndex (events : List Event) : List (String × String) :=
  events.foldl (fun m e => dictInsert m e.uid (get_event_hash e)) []

/-! ## Classification (lines 294-306) -/

inductive EClass where
  | new
  | updated
  | unchanged
deriving DecidableEq, Repr

def classify (existing_hashes : List (String × String)) (e : Event) : EClass :=
  match lookupIdx existing_hashes e.uid with
  | none => .new
  | some h => if h ≠ get_event_hash e then .updated else .unchanged

/-! ## Rendering (lines 288-343) -/

/-- Lines 308-320: both `date` and `datetime` objects have `strftime`, so
the `"All day"` branch is reachable only for a start value without that
attribute — which never occurs. -/
def timeStrOf (e : Event) : String :=
  if hasStrftimeAttr e.start then
    let start_str := strftimeHM e.start
    if hasStrftimeAttr e.end_ then start_str ++ " - " ++ strftimeHM e.end_
    else start_str
  else "All day"

/-- Lines 336-339: newline/carriage-return characters become spaces
(`str.replace` with single-character pattern and replacement is a
per-character map). -/
def pyCollapse (s : String) : String :=
  String.mk ((s.data.map (fun c => if c = '\n' then ' ' else c)).map
    (fun c => if c = '\r' then ' ' else c))

/-- Lines 334-340: the `**Description:**` line for a non-empty description. -/
def renderDescLine (d : String) : String :=
  let desc := pyCollapse d
  let desc := if desc.length > 300 then desc.take 300 ++ "..." else desc
  "**Description:** " ++ desc ++ "  \n"

/-- Lines 322-343: one per-event section of the day document (`i` is the
1-based position in the sorted order). -/
def renderEventSection (i : Nat) (e : Event) : String :=
  "## " ++ toString i ++ ". " ++ e.title ++ "\n\n" ++
  "**Time:** " ++ timeStrOf e ++ "  \n" ++
  "**Duration:** " ++ e.duration ++ "  \n" ++
  (if e.location ≠ "" then "**Location:** " ++ e.location ++ "  \n" else "") ++
  (if e.participants ≠ [] then
    let participants_clean := e.participants.filter (fun p => decide (p.trim ≠ ""))
    if participants_clean ≠ [] then
      "**Participants:** " ++ String.intercalate ", " participants_clean ++ "  \n"
    else ""
   else "") ++
  (if e.description ≠ "" then renderDescLine e.description else "") ++
  "**Event ID:** `" ++ e.uid ++ "`\n\n" ++
  "---\n\n"

/-- Lines 289-292: the day-document header. -/
def dayHeader (d : CalDate) (n : Nat) : String :=
  "# Calendar Events - " ++ toString d.year ++ "-" ++ pad2 d.month ++ "-" ++
    pad2 d.day ++ "\n\n" ++
  "**Date:** " ++ strftimeHeader d ++ "\n" ++
  "**Total Events:** " ++ toString n ++ "\n\n" ++
  "---\n\n"

/-- The per-event sections, numbered from `i` (`enumerate(sorted_events, 1)`
starts at 1). -/
def joinedSections (i : Nat) : List Event → String
  | [] => ""
  | e :: es => renderEventSection i e ++ joinedSections (i + 1) es

/-- The outcome of one day of the loop at lines 246-349: the full markdown
document, and this day's contributions to the new/updated counters.  The
document is generated from the sorted events alone; `existing_hashes` only
feeds the classification counters. -/
structure ProcessedDay where
  doc : String
  newCount : Nat
  updatedCount : Nat
deriving DecidableEq, Repr

def processDay (existing_hashes : List (String × String)) (d : CalDate)
    (g : List Event) : ProcessedDay :=
  let sorted := pySortEvents g
  { doc := dayHeader d sorted.length ++ joinedSections 1 sorted,
    newCount := sorted.countP (fun e => decide (classify existing_hashes e = EClass.new)),
    updatedCount := sorted.countP (fun e => decide (classify existing_hashes e = EClass.updated)) }

/-! ## `save_daily_events` (lines 210-359) -/

/-- Everything `save_daily_events` writes or reports: one document per day
with events (fully overwriting the file at that day's path), the aggregate
counters, and the fully rewritten fingerprint index. -/
structure SaveResult where
  docs : List (CalDate × String)
  newCount : Nat
  updatedCount : Nat
  finalIndex : List (String × String)
deriving DecidableEq, Repr

def save_daily_events (events : List Event)
    (existing_hashes : List (String × String)) : SaveResult :=
  let groups := groupByDate events
  { docs := groups.map (fun p => (p.1, (processDay existing_hashes p.1 p.2).doc)),
    newCount := (groups.map (fun p => (processDay existing_hashes p.1 p.2).newCount)).sum,
    updatedCount := (groups.map (fun p => (processDay existing_hashes p.1 p.2).updatedCount)).sum,
    finalIndex := buildIndex events }

/-! ## `archive_month` (lines 361-381) -/

/-- Function `archive_month` on an already-fetched event list: the number of
processed events, and `none` in place of the `SaveResult` when the filtered
set is empty — lines 373-375 return before any directory, document or
index write happens. -/
def archive_month (all_events : List Event) (target_year target_month : Nat)
    (loaded_index : List (String × String)) : Nat × Option SaveResult :=
  let filtered := filter_events_by_month all_events target_year target_month
  if filtered.isEmpty then (0, none)
  else (filtered.length, some (save_daily_events filtered loaded_index))

/-! ## Spec-side definition for the refinement comparison on participants -/

/-- The participant normalization as the specification words it: strip one
leading case-sensitive `MAILTO:` scheme prefix.  Defined from the spec, to
be compared with the source's `replace`-based `participantsOf`. -/
def stripMailtoSpec (s : String) : String :=
  if "MAILTO:".data.isPrefixOf s.data then String.mk (s.data.drop 7) else s

/-! ## Concrete inputs used by individual claims -/

/-- An event whose location ends up sharing its `|`-joined rendering with
`sepB` below: location `"L|D"`, empty description. -/
def sepA : Event :=
  { uid := "uid-a", title := "T", start := .dateOnly ⟨2025, 8, 5⟩,
    end_ := .dateOnly ⟨2025, 8, 5⟩, duration := "All day", location := "L|D",
    description := "", participants := [], created := "", last_modified := "" }

/-- Same title/start/end as `sepA` but location `"L"` and description
`"D|"`: the unescaped `|` separator makes the two fingerprint pre-images
collide. -/
def sepB : Event :=
  { uid := "uid-b", title := "T", start := .dateOnly ⟨2025, 8, 5⟩,
    end_ := .dateOnly ⟨2025, 8, 5⟩, duration := "All day", location := "L",
    description := "D|", participants := [], created := "", last_modified := "" }

/-- A fully populated timed event. -/
def meetW1 : Event :=
  { uid := "w1", title := "Meet", start := .dateTime ⟨2025, 8, 5⟩ ⟨9, 0, 0⟩ none,
    end_ := .dateTime ⟨2025, 8, 5⟩ ⟨10, 0, 0⟩ none, duration := "1:00:00",
    location := "Office", description := "Agenda", participants := ["alice@x"],
    created := "20250801T000000Z", last_modified := "20250802T000000Z" }

/-- Agrees with `meetW1` on title/start/end/location/description but differs
in uid, duration, participants, created and last_modified. -/
def meetW2 : Event :=
  { uid := "w2", title := "Meet", start := .dateTime ⟨2025, 8, 5⟩ ⟨9, 0, 0⟩ none,
    end_ := .dateTime ⟨2025, 8, 5⟩ ⟨10, 0, 0⟩ none, duration := "2:00:00",
    location := "Office", description := "Agenda", participants := [],
    created := "20250803T000000Z", last_modified := "20250804T000000Z" }

/-- An all-day event: `start`/`end` are bare calendar dates. -/
def alldayHoliday : Event :=
  { uid := "holiday", title := "Holiday", start := .dateOnly ⟨2025, 8, 6⟩,
    end_ := .dateOnly ⟨2025, 8, 6⟩, duration := "All day", location := "",
    description := "", participants := [], created := "", last_modified := "" }

/-- A timed event at naive midnight of the same date as `alldayHoliday`. -/
def midnightTimed : Event :=
  { uid := "midnight", title := "Midnight", start := .dateTime ⟨2025, 8, 6⟩ ⟨0, 0, 0⟩ none,
    end_ := .dateTime ⟨2025, 8, 6⟩ ⟨1, 0, 0⟩ none, duration := "1:00:00",
    location := "", description := "", participants := [], created := "",
    last_modified := "" }

/-- First of two events sharing uid `"u"` (same day, different content). -/
def dupE1 : Event :=
  { uid := "u", title := "A", start := .dateTime ⟨2025, 8, 5⟩ ⟨9, 0, 0⟩ none,
    end_ := .dateTime ⟨2025, 8, 5⟩ ⟨10, 0, 0⟩ none, duration := "1:00:00",
    location := "", description := "", participants := [], created := "",
    last_modified := "" }

/-- Second event with uid `"u"`, later the same day, different title. -/
def dupE2 : Event :=
  { uid := "u", title := "B", start := .dateTime ⟨2025, 8, 5⟩ ⟨14, 0, 0⟩ none,
    end_ := .dateTime ⟨2025, 8, 5⟩ ⟨15, 0, 0⟩ none, duration := "1:00:00",
    location := "", description := "", participants := [], created := "",
    last_modified := "" }

/-- An August 2025 event with uid `"u1"`. -/
def augE1 : Event :=
  { uid := "u1", title := "Standup", start := .dateTime ⟨2025, 8, 5⟩ ⟨9, 0, 0⟩ none,
    end_ := .dateTime ⟨2025, 8, 5⟩ ⟨10, 0, 0⟩ none, duration := "1:00:00",
    location := "", description := "", participants := [], created := "",
    last_modified := "" }

/-- An August 2025 event with uid `"u2"`, on another day. -/
def augE2 : Event :=
  { uid := "u2", title := "Review", start := .dateTime ⟨2025, 8, 6⟩ ⟨14, 0, 0⟩ none,
    end_ := .dateTime ⟨2025, 8, 6⟩ ⟨15, 0, 0⟩ none, duration := "1:00:00",
    location := "", description := "", participants := [], created := "",
    last_modified := "" }

/-- A July 2025 event (outside any August filter). -/
def julyE : Event :=
  { uid := "july", title := "July", start := .dateTime ⟨2025, 7, 10⟩ ⟨9, 0, 0⟩ none,
    end_ := .dateTime ⟨2025, 7, 10⟩ ⟨10, 0, 0⟩ none, duration := "1:00:00",
    location := "", description := "", participants := [], created := "",
    last_modified := "" }

/-- A timezone-aware event written as 2025-08-01 00:30 at UTC+02:00; its
UTC-normalized instant falls on 2025-07-31 (22:30). -/
def awareAug : Event :=
  { uid := "aware", title := "Aware", start := .dateTime ⟨2025, 8, 1⟩ ⟨0, 30, 0⟩ (some 120),
    end_ := .dateTime ⟨2025, 8, 1⟩ ⟨1, 30, 0⟩ (some 120), duration := "1:00:00",
    location := "", description := "", participants := [], created := "",
    last_modified := "" }

/-- A naive event at the wall clock of `awareAug`'s UTC instant. -/
def naiveUTCJul : Event :=
  { uid := "naive-jul", title := "NaiveJul", start := .dateTime ⟨2025, 7, 31⟩ ⟨22, 30, 0⟩ none,
    end_ := .dateTime ⟨2025, 7, 31⟩ ⟨23, 30, 0⟩ none, duration := "1:00:00",
    location := "", description := "", participants := [], created := "",
    last_modified := "" }

/-- A naive event at 02:00 on 2025-08-01. -/
def naive0200 : Event :=
  { uid := "n2", title := "NaiveTwo", start := .dateTime ⟨2025, 8, 1⟩ ⟨2, 0, 0⟩ none,
    end_ := .dateTime ⟨2025, 8, 1⟩ ⟨3, 0, 0⟩ none, duration := "1:00:00",
    location := "", description := "", participants := [], created := "",
    last_modified := "" }

/-- An aware event written 03:00+02:00 on 2025-08-01 — wall clock after
`naive0200`, but its UTC-normalized sort key (01:00) is earlier. -/
def aware0300 : Event :=
  { uid := "a3", title := "AwareThree", start := .dateTime ⟨2025, 8, 1⟩ ⟨3, 0, 0⟩ (some 120),
    end_ := .dateTime ⟨2025, 8, 1⟩ ⟨4, 0, 0⟩ (some 120), duration := "1:00:00",
    location := "", description := "", participants := [], created := "",
    last_modified := "" }

/-- An event sitting in a one-entry index under key `"x"`. -/
def idxEvent : Event :=
  { uid := "x", title := "Indexed", start := .dateTime ⟨2025, 8, 7⟩ ⟨11, 0, 0⟩ none,
    end_ := .dateTime ⟨2025, 8, 7⟩ ⟨12, 0, 0⟩ none, duration := "1:00:00",
    location := "", description := "", participants := [], created := "",
    last_modified := "" }

/-- A 301-character description. -/
def desc301 : String := String.mk (List.replicate 301 'x')

/-- A 300-character description. -/
def desc300 : String := String.mk (List.replicate 300 'y')

end CalendarArchiver

namespace CalendarArchiver

/-! ## Sanity checks of the hash embedding against published MD5 digests -/

theorem md5_empty_vector : md5Hex (utf8Bytes "") = "d41d8cd98f00b204e9800998ecf8427e" := by
  decide

theorem md5_abc_vector : md5Hex (utf8Bytes "abc") = "900150983cd24fb0d6963f7d28e17f72" := by
  decide

/-! ## Helper lemmas -/

theorem insertEvent_perm (e : Event) (l : List Event) :
    List.Perm (insertEvent e l) (e :: l) := by
  induction l with
  | nil => simp [insertEvent]
  | cons x xs ih =>
    simp only [insertEvent]
    by_cases h : keyLE (get_sort_key x) (get_sort_key e) = true
    · rw [if_pos h]
      exact (ih.cons x).trans (List.Perm.swap e x xs)
    · rw [if_neg h]

theorem foldl_insertEvent_perm (l : List Event) :
    ∀ acc : List Event,
      List.Perm (l.foldl (fun acc e => insertEvent e acc) acc) (acc ++ l) := by
  induction l with
  | nil => intro acc; simp
  | cons e es ih =>
    intro acc
    have h1 : (e :: es).foldl (fun acc e => insertEvent e acc) acc =
        es.foldl (fun acc e => insertEvent e acc) (insertEvent e acc) := rfl
    rw [h1]
    refine (ih (insertEvent e acc)).trans ?_
    refine ((insertEvent_perm e acc).append_right es).trans ?_
    exact List.perm_middle.symm

theorem pySortEvents_perm (l : List Event) : List.Perm (pySortEvents l) l := by
  simpa using foldl_insertEvent_perm l []

theorem mem_pySortEvents {e : Event} {l : List Event} : e ∈ pySortEvents l ↔ e ∈ l :=
  (pySortEvents_perm l).mem_iff

theorem lookupIdx_dictInsert (m : List (String × String)) (u v w : String) :
    lookupIdx (dictInsert m u v) w = if u = w then some v else lookupIdx m w := by
  induction m with
  | nil =>
    by_cases h : u = w <;> simp [dictInsert, lookupIdx, h]
  | cons p ps ih =>
    by_cases hp : p.1 = u
    · rw [dictInsert, if_pos hp]
      by_cases h : u = w
      · simp [lookupIdx, hp, h]
      · have hq : ¬p.1 = w := fun he => h (hp.symm.trans he)
        simp [lookupIdx, hq, h]
    · rw [dictInsert, if_neg hp]
      by_cases hq : p.1 = w
      · have hu : ¬u = w := fun he => hp (hq.trans he.symm)
        simp [lookupIdx, hq, hu]
      · simpa [lookupIdx, hq] using ih

theorem lookupIdx_foldl (es : List Event) :
    ∀ (m : List (String × String)) (u : String),
      lookupIdx (es.foldl (fun m e => dictInsert m e.uid (get_event_hash e)) m) u =
        match es.reverse.find? (fun e => e.uid == u) with
        | some x => some (get_event_hash x)
        | none => lookupIdx m u := by
  induction es with
  | nil => intro m u; simp
  | cons e es ih =>
    intro m u
    have step :
        (e :: es).foldl (fun m e => dictInsert m e.uid (get_event_hash e)) m =
          es.foldl (fun m e => dictInsert m e.uid (get_event_hash e))
            (dictInsert m e.uid (get_event_hash e)) := rfl
    rw [step, ih]
    rw [show (e :: es).reverse = es.reverse ++ [e] by simp]
    rw [List.find?_append]
    cases h : es.reverse.find? (fun e => e.uid == u) with
    | some x => simp [Option.or]
    | none =>
      simp only [Option.or, lookupIdx_dictInsert]
      cases hpe : (e.uid == u) with
      | true =>
        have heq : e.uid = u := eq_of_beq hpe
        simp [List.find?, hpe, heq]
      | false =>
        have hne : ¬e.uid = u := ne_of_beq_false hpe
        simp [List.find?, hpe, hne]

theorem lookupIdx_buildIndex (es : List Event) (u : String) :
    lookupIdx (buildIndex es) u =
      (es.reverse.find? (fun e => e.uid == u)).map get_event_hash := by
  rw [buildIndex, lookupIdx_foldl]
  cases h : es.reverse.find? (fun e => e.uid == u) <;> simp [lookupIdx]

theorem mem_fst_dictInsert {m : List (String × String)} {u v x : String} :
    x ∈ (dictInsert m u v).map Prod.fst ↔ x ∈ m.map Prod.fst ∨ x = u := by
  induction m with
  | nil => simp [dictInsert]
  | cons p ps ih =>
    by_cases hp : p.1 = u
    · rw [dictInsert, if_pos hp]
      constructor
      · rintro h
        simp at h
        rcases h with h | h
        · exact Or.inl (by simp [h])
        · exact Or.inl (by simp; right; exact h)
      · rintro (h | h)
        · simpa using h
        · simp [h, ← hp]
    · rw [dictInsert, if_neg hp]
      simp only [List.map_cons, List.mem_cons, ih]
      tauto

theorem nodup_fst_dictInsert {m : List (String × String)} {u v : String}
    (h : (m.map Prod.fst).Nodup) : ((dictInsert m u v).map Prod.fst).Nodup := by
  induction m with
  | nil => simp [dictInsert]
  | cons p ps ih =>
    rw [List.map_cons, List.nodup_cons] at h
    by_cases hp : p.1 = u
    · rw [dictInsert, if_pos hp]
      simpa [List.nodup_cons] using h
    · rw [dictInsert, if_neg hp]
      rw [List.map_cons, List.nodup_cons]
      refine ⟨fun hmem => ?_, ih h.2⟩
      rcases mem_fst_dictInsert.mp hmem with hmem | hmem
      · exact h.1 hmem
      · exact hp hmem

theorem nodup_fst_buildIndex (es : List Event) :
    ((buildIndex es).map Prod.fst).Nodup := by
  rw [buildIndex]
  have general :
      ∀ (l : List Event) (m : List (String × String)), (m.map Prod.fst).Nodup →
        ((l.foldl (fun m e => dictInsert m e.uid (get_event_hash e)) m).map Prod.fst).Nodup := by
    intro l
    induction l with
    | nil => intro m hm; simpa using hm
    | cons e es ih => intro m hm; exact ih _ (nodup_fst_dictInsert hm)
  exact general es [] (by simp)

theorem sum_eq_zero_of_all {l : List Nat} (h : ∀ x ∈ l, x = 0) : l.sum = 0 := by
  induction l with
  | nil => rfl
  | cons x xs ih =>
    rw [List.sum_cons, h x (by simp), Nat.zero_add]
    exact ih (fun y hy => h y (by simp [hy]))

theorem joinedSections_decomp {l : List Event} {e : Event} (he : e ∈ l) :
    ∀ j : Nat, ∃ (i : Nat) (pre post : List Char),
      (joinedSections j l).data = pre ++ (renderEventSection i e).data ++ post := by
  induction l with
  | nil => cases he
  | cons x xs ih =>
    intro j
    rcases List.mem_cons.mp he with he | he
    · subst he
      exact ⟨j, [], (joinedSections (j + 1) xs).data, by
        simp [joinedSections, String.data_append]⟩
    · obtain ⟨i, pre, post, hd⟩ := ih he (j + 1)
      exact ⟨i, (renderEventSection j x).data ++ pre, post, by
        simp [joinedSections, String.data_append, hd, List.append_assoc]⟩

theorem groupByDate_snd {events : List Event} {p : CalDate × List Event}
    (hp : p ∈ groupByDate events) :
    p.2 = events.filter (fun e => decide (eventStartDate e.start = p.1)) := by
  rw [groupByDate] at hp
  obtain ⟨d, _, hd⟩ := List.mem_map.mp hp
  rw [← hd]

theorem classify_of_mem_buildIndex {events : List Event} {e : Event} (he : e ∈ events) :
    classify (buildIndex events) e ≠ .new ∧
      ((∀ e1 ∈ events, ∀ e2 ∈ events, e1.uid = e2.uid →
          get_event_hash e1 = get_event_hash e2) →
        classify (buildIndex events) e = .unchanged) := by
  have hfind : (events.reverse.find? (fun x => x.uid == e.uid)).isSome := by
    rw [List.find?_isSome]
    exact ⟨e, by simp [he], by simp⟩
  obtain ⟨x, hx⟩ := Option.isSome_iff_exists.mp hfind
  have hlook : lookupIdx (buildIndex events) e.uid = some (get_event_hash x) := by
    rw [lookupIdx_buildIndex, hx]
    rfl
  have hxuid : x.uid = e.uid := by simpa using List.find?_some hx
  have hxmem : x ∈ events := by
    have := List.mem_of_find?_eq_some hx
    simpa using this
  constructor
  · intro hnew
    rw [classify, hlook] at hnew
    by_cases hne : get_event_hash x ≠ get_event_hash e <;> simp [hne] at hnew
  · intro hagree
    have hhash : get_event_hash x = get_event_hash e := hagree x hxmem e he hxuid
    rw [classify, hlook]
    simp [hhash]

/-! ## Claim theorems -/

/-- C1 (counterexample): the claimed equivalence "fingerprints differ iff
title, stringified start, stringified end, location, or description differ"
is false: `sepA` and `sepB` differ in location and description, yet the
unescaped `|` separator makes their fingerprint pre-images — and hence
their MD5 fingerprints — coincide. -/
theorem c1_fingerprint_iff_fails :
    ¬ ((get_event_hash sepA ≠ get_event_hash sepB) ↔
        ¬ (sepA.title = sepB.title ∧ pyStr sepA.start = pyStr sepB.start ∧
           pyStr sepA.end_ = pyStr sepB.end_ ∧ sepA.location = sepB.location ∧
           sepA.description = sepB.description)) := by
  intro hiff
  have hdata : eventData sepA = eventData sepB := by decide
  have hhash : get_event_hash sepA = get_event_hash sepB := by
    rw [get_event_hash, get_event_hash, hdata]
  have hfields : ¬ (sepA.title = sepB.title ∧ pyStr sepA.start = pyStr sepB.start ∧
      pyStr sepA.end_ = pyStr sepB.end_ ∧ sepA.location = sepB.location ∧
      sepA.description = sepB.description) := by decide
  exact (hiff.mpr hfields) hhash

/-- C1 (amended): the fingerprint is deterministic, and is fully determined
by the five hashed fields — two events agreeing on title, stringified
start, stringified end, location and description (so in particular two
events differing only in uid, participants, created, last_modified or
duration) have equal fingerprints.  A difference in those five fields does
not, however, guarantee different fingerprints (see the counterexample). -/
theorem c1_fingerprint_determined_by_fields :
    (∀ e : Event, get_event_hash e = get_event_hash e) ∧
    (∀ e1 e2 : Event, e1.title = e2.title → pyStr e1.start = pyStr e2.start →
      pyStr e1.end_ = pyStr e2.end_ → e1.location = e2.location →
      e1.description = e2.description → get_event_hash e1 = get_event_hash e2) := by
  refine ⟨fun e => rfl, fun e1 e2 h1 h2 h3 h4 h5 => ?_⟩
  rw [get_event_hash, get_event_hash, eventData, eventData, h1, h2, h3, h4, h5]

/-- C1 (witness): `meetW1`/`meetW2` agree on the five hashed fields and
differ in every excluded field, and their fingerprints are equal. -/
theorem c1_fingerprint_witness :
    get_event_hash meetW1 = get_event_hash meetW2 ∧
    meetW1.uid ≠ meetW2.uid ∧ meetW1.duration ≠ meetW2.duration ∧
    meetW1.participants ≠ meetW2.participants ∧
    meetW1.created ≠ meetW2.created ∧ meetW1.last_modified ≠ meetW2.last_modified :=
  ⟨c1_fingerprint_determined_by_fields.2 meetW1 meetW2 rfl rfl rfl rfl rfl,
   by decide, by decide, by decide, by decide, by decide⟩

/-- C2 (code evaluated at the failing input): a `date` object does have
`strftime`, so an all-day event's rendered time field is
`"00:00 - 00:00"`, not the `"All day"` the claim (and the dead `else`
branch at line 320) prescribe; the sort half of the claim does hold — the
all-day event's sort key equals that of a naive-midnight timed event on the
same date. -/
theorem c2_allday_renders_midnight_not_allday :
    timeStrOf alldayHoliday = "00:00 - 00:00" ∧
    timeStrOf alldayHoliday ≠ "All day" ∧
    get_sort_key alldayHoliday = get_sort_key midnightTimed :=
  ⟨by decide, by decide, by decide⟩

/-- C3 (counterexample): on an event set containing two events with the
same uid but different content, the second archive run over the first run's
final index reports one updated event, not zero. -/
theorem c3_second_run_reports_updated :
    (save_daily_events [dupE1, dupE2]
        (save_daily_events [dupE1, dupE2] []).finalIndex).updatedCount = 1 ∧
    (save_daily_events [dupE1, dupE2]
        (save_daily_events [dupE1, dupE2] []).finalIndex).updatedCount ≠ 0 := by
  have h1 : (save_daily_events [dupE1, dupE2]
      (save_daily_events [dupE1, dupE2] []).finalIndex).updatedCount = 1 := by decide
  exact ⟨h1, by rw [h1]; decide⟩

/-- C3 (amended): re-archiving the same event set over the previous run's
final index always reproduces byte-identical day documents and reports zero
new events; it additionally reports zero updated events provided any two
events sharing a uid have equal fingerprints (in particular whenever uids
are pairwise distinct).  With duplicate uids of differing content the
updated counter can be nonzero (see the counterexample). -/
theorem c3_archive_idempotent (events : List Event) (idx0 : List (String × String)) :
    (save_daily_events events (save_daily_events events idx0).finalIndex).docs =
      (save_daily_events events idx0).docs ∧
    (save_daily_events events (save_daily_events events idx0).finalIndex).newCount = 0 ∧
    ((∀ e1 ∈ events, ∀ e2 ∈ events, e1.uid = e2.uid →
        get_event_hash e1 = get_event_hash e2) →
      (save_daily_events events (save_daily_events events idx0).finalIndex).updatedCount = 0) := by
  refine ⟨rfl, ?_, fun hagree => ?_⟩
  · apply sum_eq_zero_of_all
    intro x hx
    obtain ⟨p, hp, hpx⟩ := List.mem_map.mp hx
    rw [← hpx]
    show ((pySortEvents p.2).countP
      (fun e => decide (classify (buildIndex events) e = EClass.new))) = 0
    rw [List.countP_eq_zero]
    intro e hme
    have he2 : e ∈ p.2 := mem_pySortEvents.mp hme
    have hfe : e ∈ events := by
      have := groupByDate_snd hp ▸ he2
      exact (List.mem_filter.mp this).1
    simp only [decide_eq_true_eq]
    exact (classify_of_mem_buildIndex hfe).1
  · apply sum_eq_zero_of_all
    intro x hx
    obtain ⟨p, hp, hpx⟩ := List.mem_map.mp hx
    rw [← hpx]
    show ((pySortEvents p.2).countP
      (fun e => decide (classify (buildIndex events) e = EClass.updated))) = 0
    rw [List.countP_eq_zero]
    intro e hme
    have he2 : e ∈ p.2 := mem_pySortEvents.mp hme
    have hfe : e ∈ events := by
      have := groupByDate_snd hp ▸ he2
      exact (List.mem_filter.mp this).1
    have hcls : classify (buildIndex events) e = EClass.unchanged :=
      (classify_of_mem_buildIndex hfe).2 hagree
    simp [hcls]

/-- C3 (witness): on two distinct-uid August events the second run
reproduces the documents and reports zero new and zero updated. -/
theorem c3_archive_idempotent_witness :
    (save_daily_events [augE1, augE2]
        (save_daily_events [augE1, augE2] []).finalIndex).docs =
      (save_daily_events [augE1, augE2] []).docs ∧
    (save_daily_events [augE1, augE2]
        (save_daily_events [augE1, augE2] []).finalIndex).newCount = 0 ∧
    (save_daily_events [augE1, augE2]
        (save_daily_events [augE1, augE2] []).finalIndex).updatedCount = 0 :=
  ⟨(c3_archive_idempotent [augE1, augE2] []).1,
   (c3_archive_idempotent [augE1, augE2] []).2.1,
   (c3_archive_idempotent [augE1, augE2] []).2.2 (by decide)⟩

/-- C4: an event is classified new iff its uid is absent from the loaded
index, updated iff the uid maps to a hash different from the event's
fingerprint, unchanged iff it maps to the same hash; the rendered day
document does not depend on the index at all, and every event of the day
group appears in the document as a rendered section regardless of its
classification. -/
theorem c4_classification (idx : List (String × String)) (e : Event) (d : CalDate)
    (g : List Event) :
    (classify idx e = EClass.new ↔ lookupIdx idx e.uid = none) ∧
    (classify idx e = EClass.updated ↔
      ∃ h, lookupIdx idx e.uid = some h ∧ h ≠ get_event_hash e) ∧
    (classify idx e = EClass.unchanged ↔
      ∃ h, lookupIdx idx e.uid = some h ∧ h = get_event_hash e) ∧
    (processDay idx d g).doc = (processDay [] d g).doc ∧
    (e ∈ g → ∃ (i : Nat) (pre post : List Char),
      ((processDay idx d g).doc).data = pre ++ (renderEventSection i e).data ++ post) := by
  have hrender : e ∈ g → ∃ (i : Nat) (pre post : List Char),
      ((processDay idx d g).doc).data = pre ++ (renderEventSection i e).data ++ post := by
    intro hmem
    have hmem' : e ∈ pySortEvents g := mem_pySortEvents.mpr hmem
    obtain ⟨i, pre, post, hdecomp⟩ := joinedSections_decomp hmem' 1
    refine ⟨i, (dayHeader d (pySortEvents g).length).data ++ pre, post, ?_⟩
    have hdoc : (processDay idx d g).doc =
        dayHeader d (pySortEvents g).length ++ joinedSections 1 (pySortEvents g) := rfl
    rw [hdoc, String.data_append, hdecomp]
    simp [List.append_assoc]
  cases hl : lookupIdx idx e.uid with
  | none =>
    refine ⟨by simp [classify, hl], ?_, ?_, rfl, hrender⟩
    · simp [classify, hl]
    · simp [classify, hl]
  | some h0 =>
    by_cases hne : h0 = get_event_hash e
    · refine ⟨by simp [classify, hl, hne], ?_, ?_, rfl, hrender⟩
      · simp [classify, hl, hne]
      · simp [classify, hl, hne]
    · refine ⟨by simp [classify, hl, hne], ?_, ?_, rfl, hrender⟩
      · simp [classify, hl, hne]
      · simp [classify, hl, hne]

/-- C4 (witness): with a concrete one-entry index and a one-event group,
the event's section appears in the rendered day document. -/
theorem c4_classification_witness :
    ∃ (i : Nat) (pre post : List Char),
      ((processDay [("x", "deadbeef")] ⟨2025, 8, 7⟩ [idxEvent]).doc).data =
        pre ++ (renderEventSection i idxEvent).data ++ post :=
  (c4_classification [("x", "deadbeef")] idxEvent ⟨2025, 8, 7⟩ [idxEvent]).2.2.2.2
    (by simp)

/-- C5: for a non-empty filtered month the archiver runs `save_daily_events`
on the filtered set, and the persisted index is exactly the uid-to-
fingerprint map over that set (last occurrence winning) — a full
replacement: any uid carried by the previously loaded index but absent from
the filtered set has no entry in the new index. -/
theorem c5_index_full_replacement (all_events : List Event) (y m : Nat)
    (idx : List (String × String))
    (hne : filter_events_by_month all_events y m ≠ []) :
    archive_month all_events y m idx =
      ((filter_events_by_month all_events y m).length,
        some (save_daily_events (filter_events_by_month all_events y m) idx)) ∧
    (∀ u, lookupIdx
        (save_daily_events (filter_events_by_month all_events y m) idx).finalIndex u =
      ((filter_events_by_month all_events y m).reverse.find?
        (fun e => e.uid == u)).map get_event_hash) ∧
    (∀ u, (∀ e ∈ filter_events_by_month all_events y m, e.uid ≠ u) →
      lookupIdx
        (save_daily_events (filter_events_by_month all_events y m) idx).finalIndex u =
        none) := by
  have hemp : (filter_events_by_month all_events y m).isEmpty = false :=
    List.isEmpty_eq_false.mpr hne
  refine ⟨by simp [archive_month, hemp], fun u => ?_, fun u hu => ?_⟩
  · exact lookupIdx_buildIndex _ u
  · rw [show (save_daily_events (filter_events_by_month all_events y m) idx).finalIndex =
        buildIndex (filter_events_by_month all_events y m) from rfl]
    rw [lookupIdx_buildIndex]
    have hnone : (filter_events_by_month all_events y m).reverse.find?
        (fun e => e.uid == u) = none := by
      rw [List.find?_eq_none]
      intro x hx
      have hxu : x.uid ≠ u := hu x (by simpa using hx)
      simp [hxu]
    rw [hnone]
    rfl

/-- C5 (witness): archiving two August events over a stale index drops the
stale `"gone"` entry and stores the fingerprint of the current event. -/
theorem c5_index_full_replacement_witness :
    lookupIdx (save_daily_events (filter_events_by_month [augE1, augE2] 2025 8)
      [("gone", "stalehash")]).finalIndex "gone" = none ∧
    lookupIdx (save_daily_events (filter_events_by_month [augE1, augE2] 2025 8)
      [("gone", "stalehash")]).finalIndex "u1" = some (get_event_hash augE1) := by
  constructor
  · exact (c5_index_full_replacement [augE1, augE2] 2025 8 [("gone", "stalehash")]
      (by decide)).2.2 "gone" (by decide)
  · rw [(c5_index_full_replacement [augE1, augE2] 2025 8 [("gone", "stalehash")]
      (by decide)).2.1 "u1"]
    decide

/-- C6: after newline collapsing, a description longer than 300 characters
is rendered as its first 300 characters followed by the `"..."` marker (in
particular at length 301), and a description of exactly 300 characters is
rendered unmodified; newlines and carriage returns become spaces. -/
theorem c6_description_truncation (s : String) :
    ((pyCollapse s).length > 300 →
      renderDescLine s =
        "**Description:** " ++ ((pyCollapse s).take 300 ++ "...") ++ "  \n") ∧
    ((pyCollapse s).length = 300 →
      renderDescLine s = "**Description:** " ++ pyCollapse s ++ "  \n") ∧
    ((pyCollapse s).length = 301 →
      renderDescLine s =
        "**Description:** " ++ ((pyCollapse s).take 300 ++ "...") ++ "  \n") ∧
    pyCollapse "a\nb\rc" = "a b c" := by
  refine ⟨fun h => ?_, fun h => ?_, fun h => ?_, by decide⟩
  · simp [renderDescLine, h]
  · simp [renderDescLine, h]
  · simp [renderDescLine, h]

/-- C6 (witness): a 301-character description is truncated; a 300-character
one is not. -/
theorem c6_description_truncation_witness :
    renderDescLine desc301 =
      "**Description:** " ++ ((pyCollapse desc301).take 300 ++ "...") ++ "  \n" ∧
    renderDescLine desc300 = "**Description:** " ++ pyCollapse desc300 ++ "  \n" :=
  ⟨(c6_description_truncation desc301).2.2.1 (by decide),
   (c6_description_truncation desc300).2.1 (by decide)⟩

/-- C7 (counterexample): the source removes every occurrence of `MAILTO:`
(Python `str.replace`), not just a scheme prefix: on the single attendee
value `"xMAILTO:y"` — which has no `MAILTO:` prefix, so prefix-stripping as
claimed would leave it unchanged — the code produces `"xy"`. -/
theorem c7_mailto_not_prefix_strip :
    participantsOf (.single "xMAILTO:y") = ["xy"] ∧
    stripMailtoSpec "xMAILTO:y" = "xMAILTO:y" ∧
    participantsOf (.single "xMAILTO:y") ≠ [stripMailtoSpec "xMAILTO:y"] :=
  ⟨by decide, by decide, by decide⟩

/-- C7 (amended): a single attendee value is wrapped into a one-element
sequence, a multi-valued field maps elementwise (preserving length), and
each participant string has every case-sensitive occurrence of `MAILTO:`
removed — in particular a leading `MAILTO:` prefix is stripped, while a
lowercase `mailto:` is left untouched. -/
theorem c7_mailto_replace_all :
    participantsOf AttendeeField.absent = [] ∧
    (∀ v, participantsOf (.single v) = participantsOf (.multiple [v])) ∧
    (∀ vs, (participantsOf (.multiple vs)).length = vs.length) ∧
    (∀ s : String, pyReplaceMailto ("MAILTO:" ++ s) = pyReplaceMailto s) ∧
    pyReplaceMailto "mailto:alice@example.com" = "mailto:alice@example.com" := by
  refine ⟨rfl, fun v => rfl, fun vs => by simp [participantsOf, pyReplaceMailto],
    fun s => ?_, by decide⟩
  cases s with
  | mk data => rfl

/-- C8: when the month filter returns no events, `archive_month` reports
zero processed events and produces no writes at all — no day document and
no index file. -/
theorem c8_empty_month_no_writes (all_events : List Event) (y m : Nat)
    (idx : List (String × String))
    (h : filter_events_by_month all_events y m = []) :
    archive_month all_events y m idx = (0, none) := by
  simp [archive_month, h]

/-- C8 (witness): archiving August 2025 over a July-only event list writes
nothing and reports zero. -/
theorem c8_empty_month_no_writes_witness :
    archive_month [julyE] 2025 8 [("z", "h")] = (0, none) :=
  c8_empty_month_no_writes [julyE] 2025 8 [("z", "h")] (by decide)

/-- C9: the persisted index has pairwise-distinct uids; its entry for a uid
is the fingerprint of the last event in input order bearing that uid; and
on a concrete duplicate-uid pair both occurrences are rendered into the day
document and both are counted, while the index keeps a single entry holding
the second event's fingerprint. -/
theorem c9_index_last_wins :
    (∀ events : List Event, ((buildIndex events).map Prod.fst).Nodup) ∧
    (∀ (events : List Event) (u : String),
      lookupIdx (buildIndex events) u =
        (events.reverse.find? (fun e => e.uid == u)).map get_event_hash) ∧
    (save_daily_events [dupE1, dupE2] []).finalIndex = [("u", get_event_hash dupE2)] ∧
    (save_daily_events [dupE1, dupE2] []).newCount = 2 ∧
    (processDay [] ⟨2025, 8, 5⟩ [dupE1, dupE2]).doc =
      dayHeader ⟨2025, 8, 5⟩ 2 ++
        (renderEventSection 1 dupE1 ++ (renderEventSection 2 dupE2 ++ "")) := by
  refine ⟨nodup_fst_buildIndex, lookupIdx_buildIndex, rfl, by decide, by decide⟩

/-- C10: month filtering and day grouping read the start value's recorded
calendar date with no timezone conversion — the aware event written
2025-08-01 00:30 at +02:00 (UTC instant 2025-07-31 22:30) is filtered and
grouped under August 1st — while the within-day sort key does UTC-normalize:
its key equals that of a naive 2025-07-31 22:30 event, and an aware
03:00+02:00 event sorts before a naive 02:00 event of the same day. -/
theorem c10_local_date_no_tz_conversion :
    (∀ (d : CalDate) (t : TimeOfDay) (off : Int),
      eventStartDate (DTValue.dateTime d t (some off)) = d ∧
      eventStartDate (DTValue.dateTime d t none) = d) ∧
    filter_events_by_month [awareAug] 2025 8 = [awareAug] ∧
    filter_events_by_month [awareAug] 2025 7 = [] ∧
    groupByDate [awareAug] = [(⟨2025, 8, 1⟩, [awareAug])] ∧
    (get_sort_key awareAug).1 = (get_sort_key naiveUTCJul).1 ∧
    pySortEvents [naive0200, aware0300] = [aware0300, naive0200] := by
  refine ⟨fun d t off => ⟨rfl, rfl⟩, by decide, by decide, by decide, by decide, by decide⟩

end CalendarArchiver
